import Mathlib

/-!
Verification of the x264 bridge layer (`pkg/codec/x264/bridge.h`).

The C file is a thin control layer over the external x264 engine.  We embed
its data model and the four entry points (`enc_new`, `apply_target_bitrate`,
`enc_encode`, `enc_close`) as pure Lean functions.  The external engine calls
(`x264_param_default_preset`, `x264_param_apply_profile`, `x264_picture_alloc`,
`x264_encoder_open`, `x264_encoder_encode`, `x264_encoder_reconfig`) are
modelled as oracle function parameters, since the engine is an external
collaborator whose body is out of scope.  Pointers are modelled as `Nat`
(0 = NULL); C `int` as `Int` (no operation in this file can overflow a 32-bit
int, so no wrap-around modelling is needed); C `float` fields as `Rat`, since
the bridge only ever stores literal constants in them and never computes with
them.  C integer division truncates toward zero, hence `Int.tdiv`.
-/

/-- x264.h: `X264_RC_ABR` = 2. -/
def X264_RC_ABR : Int := 2

/-- x264.h: `X264_TYPE_AUTO` = 0x0000. -/
def X264_TYPE_AUTO : Int := 0

/-- x264.h: `X264_TYPE_IDR` = 0x0001. -/
def X264_TYPE_IDR : Int := 1

/-- bridge.h error codes. -/
def ERR_DEFAULT_PRESET : Int := -1

def ERR_APPLY_PROFILE : Int := -2

def ERR_ALLOC_PICTURE : Int := -3

def ERR_OPEN_ENGINE : Int := -4

def ERR_ENCODE : Int := -5

def ERR_BITRATE_RECONFIG : Int := -6

/-- bridge.h: `#define RC_MARGIN 10000`. -/
def RC_MARGIN : Int := 10000

/-- The rate-control sub-struct of `x264_param_t` (the fields bridge.h touches). -/
structure RateControl where
  i_rc_method : Int
  i_bitrate : Int
  f_rate_tolerance : Rat
  i_vbv_max_bitrate : Int
  i_vbv_buffer_size : Int
  f_vbv_buffer_init : Rat
  deriving DecidableEq, Repr

/-- The fields of `x264_param_t` that bridge.h reads or writes. -/
structure X264Param where
  i_csp : Int
  i_width : Int
  i_height : Int
  i_fps_num : Int
  i_fps_den : Int
  i_keyint_max : Int
  rc : RateControl
  b_repeat_headers : Int
  b_annexb : Int
  deriving DecidableEq, Repr

/-- `x264_picture_t` as used by bridge.h: the three plane pointers that
`enc_encode` rebinds, the frame-type request `i_type`, and an abstract `meta`
word standing for the remaining geometry metadata (strides, plane count, …)
captured from `x264_picture_alloc`. -/
structure PicIn where
  plane0 : Nat
  plane1 : Nat
  plane2 : Nat
  i_type : Int
  meta : Nat
  deriving DecidableEq, Repr

/-- The `Encoder` session struct of bridge.h. -/
structure Encoder where
  h : Nat
  pic_in : PicIn
  param : X264Param
  force_key_frame : Int
  deriving DecidableEq, Repr

/-- The `Slice` struct of bridge.h (`data` = NULL is modelled as 0). -/
structure Slice where
  data : Nat
  data_len : Int
  deriving DecidableEq, Repr

/-- What bridge.h reads out of one `x264_encoder_encode` call: the returned
frame size and the first emitted NAL's payload pointer (`nal->p_payload`). -/
structure EncodeEngineResult where
  frame_size : Int
  payload : Nat
  deriving DecidableEq, Repr

/-- The external engine entry points used by `enc_new`, as oracles.
`none` models a negative return (or a NULL handle for `encoder_open`).
`apply_profile` may rewrite the configuration, as the real
`x264_param_apply_profile` does. -/
structure EncNewOracle where
  default_preset : String → Option X264Param
  apply_profile : X264Param → Option X264Param
  picture_alloc : Int → Int → Int → Option PicIn
  encoder_open : X264Param → Option Nat

/-- Heap accounting for `enc_new`: which of the three allocations it handles
(the `Encoder` struct from `malloc`, the caller-transferred `preset` string,
the pixel storage of `x264_picture_alloc`) are still live. -/
structure Resources where
  sessionLive : Bool
  presetLive : Bool
  picLive : Bool
  deriving DecidableEq, Repr

/-- The "Configure non-default params" block of `enc_new` (bridge.h lines
36-50): overwrite the preset-seeded defaults field by field from the caller's
`param`. -/
def configure (defaults : X264Param) (param : X264Param) : X264Param :=
  { defaults with
    i_csp := param.i_csp
    i_width := param.i_width
    i_height := param.i_height
    i_fps_num := param.i_fps_num
    i_fps_den := 1
    i_keyint_max := param.i_keyint_max
    rc := { defaults.rc with
      i_rc_method := X264_RC_ABR
      i_bitrate := param.rc.i_bitrate
      i_vbv_max_bitrate := param.rc.i_vbv_max_bitrate
      i_vbv_buffer_size := param.rc.i_vbv_buffer_size }
    b_repeat_headers := 1
    b_annexb := 1 }

/-- `enc_new` (bridge.h lines 25-80).  `junk_fkf` is the indeterminate value
`malloc` left in the `force_key_frame` field: the C code never writes that
field, so the returned session carries whatever was in memory.  `rc0` is the
value the caller's `int *rc` out-parameter held on entry; the second component
of the result is its value on return.  The third component accounts for the
three allocations the function manages. -/
def enc_new (o : EncNewOracle) (junk_fkf : Int) (param : X264Param)
    (preset : String) (rc0 : Int) : Option Encoder × Int × Resources :=
  -- Encoder *e = malloc(sizeof(Encoder)); preset ownership is transferred in.
  let r0 : Resources := ⟨true, true, false⟩
  match o.default_preset preset with
  | none =>
      -- free(preset); *rc = ERR_DEFAULT_PRESET; goto fail (free(e))
      (none, ERR_DEFAULT_PRESET, { r0 with presetLive := false, sessionLive := false })
  | some defaults =>
      -- free(preset)
      let r1 := { r0 with presetLive := false }
      let cfg := configure defaults param
      match o.apply_profile cfg with
      | none =>
          -- *rc = ERR_APPLY_PROFILE; goto fail (free(e))
          (none, ERR_APPLY_PROFILE, { r1 with sessionLive := false })
      | some cfg' =>
          match o.picture_alloc param.i_csp param.i_width param.i_height with
          | none =>
              -- *rc = ERR_ALLOC_PICTURE; goto fail (free(e))
              (none, ERR_ALLOC_PICTURE, { r1 with sessionLive := false })
          | some pic =>
              -- e->pic_in = pic_in; x264_picture_clean(&pic_in)
              let r2 := { r1 with picLive := true }
              let r3 := { r2 with picLive := false }
              match o.encoder_open cfg' with
              | none =>
                  -- *rc = ERR_OPEN_ENGINE; goto fail (free(e))
                  (none, ERR_OPEN_ENGINE, { r3 with sessionLive := false })
              | some h =>
                  (some { h := h, pic_in := pic, param := cfg',
                          force_key_frame := junk_fkf }, rc0, r3)

/-- The rate-control update of `apply_target_bitrate` on the non-no-op path
(bridge.h lines 89-93), as a function of the converted bitrate. -/
def retarget_rc (rcIn : RateControl) (target_encoder_bitrate : Int) : RateControl :=
  let vbv_max := target_encoder_bitrate + RC_MARGIN.tdiv 2
  { rcIn with
    i_bitrate := target_encoder_bitrate
    f_rate_tolerance := (1 : Rat) / 10
    i_vbv_max_bitrate := vbv_max
    i_vbv_buffer_size := vbv_max
    f_vbv_buffer_init := (3 : Rat) / 5 }

/-- The configuration `apply_target_bitrate` pushes into the live engine. -/
def retarget_param (p : X264Param) (target_encoder_bitrate : Int) : X264Param :=
  { p with rc := retarget_rc p.rc target_encoder_bitrate }

/-- `apply_target_bitrate` (bridge.h lines 82-96).  `reconfig` is the
`x264_encoder_reconfig` oracle (0 on success, negative on error).  Returns the
updated session, the function's return value, and whether the reconfiguration
entry point was invoked. -/
def apply_target_bitrate (reconfig : Nat → X264Param → Int) (e : Encoder)
    (target_bitrate : Int) : Encoder × Int × Bool :=
  let target_encoder_bitrate := target_bitrate.tdiv 1000
  if e.param.rc.i_bitrate = target_encoder_bitrate ∨ target_encoder_bitrate ≤ 1 then
    -- no change to bitrate, or target bitrate too small: no error (0)
    (e, 0, false)
  else
    let e' := { e with param := retarget_param e.param target_encoder_bitrate }
    (e', reconfig e'.h e'.param, true)

/-- The picture `enc_encode` submits to `x264_encoder_encode` (bridge.h lines
102-111): caller planes bound in, `i_type` forced to IDR when the one-shot
flag is set, AUTO otherwise. -/
def submitted_pic (e : Encoder) (y cb cr : Nat) : PicIn :=
  { e.pic_in with
    plane0 := y
    plane1 := cb
    plane2 := cr
    i_type := if e.force_key_frame ≠ 0 then X264_TYPE_IDR else X264_TYPE_AUTO }

/-- `enc_encode` (bridge.h lines 98-123).  `engine` is the
`x264_encoder_encode` oracle (given the handle and the submitted picture it
yields the frame size and the first NAL's payload pointer).  `rc0` is the
caller's `int *rc` value on entry; the last component is its value on return. -/
def enc_encode (engine : Nat → PicIn → EncodeEngineResult) (e : Encoder)
    (y cb cr : Nat) (rc0 : Int) : Encoder × Slice × Int :=
  let pic := submitted_pic e y cb cr
  let r := engine e.h pic
  -- e->force_key_frame = 0 (unconditionally, after the engine call)
  let e' := { e with pic_in := pic, force_key_frame := 0 }
  -- Slice s = {.data_len = frame_size};  (remaining fields zero-initialized)
  let s : Slice := { data := 0, data_len := r.frame_size }
  if r.frame_size ≤ 0 then
    (e', s, ERR_ENCODE)
  else
    (e', { s with data := r.payload }, rc0)

/-- `enc_close` (bridge.h lines 125-128): releases the engine handle and the
session memory; never touches the `rc` out-parameter, whose entry value is
returned unchanged. -/
def enc_close (e : Encoder) (rc0 : Int) : Int := rc0

/-! Concrete fixtures used by witness theorems. -/

/-- A sample rate-control block (values as a preset might seed them). -/
def rcFixture : RateControl :=
  { i_rc_method := 2, i_bitrate := 2000, f_rate_tolerance := 1,
    i_vbv_max_bitrate := 2500, i_vbv_buffer_size := 2500, f_vbv_buffer_init := 9/10 }

/-- A sample caller parameter set (1280x720 at 30 fps, keyint 60). -/
def p0 : X264Param :=
  { i_csp := 2, i_width := 1280, i_height := 720, i_fps_num := 30, i_fps_den := 1,
    i_keyint_max := 60, rc := rcFixture, b_repeat_headers := 1, b_annexb := 1 }

/-- A sample picture descriptor. -/
def pic0 : PicIn := { plane0 := 0, plane1 := 0, plane2 := 0, i_type := 0, meta := 0 }

/-- A sample opened session. -/
def enc0 : Encoder := { h := 1, pic_in := pic0, param := p0, force_key_frame := 0 }

/-- An engine for which every `enc_new` step succeeds. -/
def oracleOK : EncNewOracle :=
  { default_preset := fun _ => some p0
    apply_profile := fun p => some p
    picture_alloc := fun _ _ _ => some pic0
    encoder_open := fun _ => some 1 }

/-- An engine that rejects the preset name. -/
def oracleBadPreset : EncNewOracle :=
  { oracleOK with default_preset := fun _ => none }

/-- An engine whose encode step emits 100 bytes at payload pointer 42. -/
def engineOk : Nat → PicIn → EncodeEngineResult :=
  fun _ _ => { frame_size := 100, payload := 42 }

/-- An engine whose encode step returns 0 bytes. -/
def engineStall : Nat → PicIn → EncodeEngineResult :=
  fun _ _ => { frame_size := 0, payload := 0 }

/-- A live reconfiguration that succeeds. -/
def reconfigOK : Nat → X264Param → Int := fun _ _ => 0

/-- A live reconfiguration that the engine rejects. -/
def reconfigReject : Nat → X264Param → Int := fun _ _ => -1

/-- C1: for every encode call, the frame type submitted to the engine is IDR
when the session's force-key-frame flag is set and AUTO otherwise, and after
the call the session's force-key-frame flag is 0 (false), regardless of the
engine's encode result. -/
theorem C1_encode_frame_type_and_flag_clear (engine : Nat → PicIn → EncodeEngineResult)
    (e : Encoder) (y cb cr : Nat) (rc0 : Int) :
    (submitted_pic e y cb cr).i_type
        = (if e.force_key_frame ≠ 0 then X264_TYPE_IDR else X264_TYPE_AUTO) ∧
    (enc_encode engine e y cb cr rc0).1.force_key_frame = 0 := by
  refine ⟨rfl, ?_⟩
  simp only [enc_encode]
  split <;> rfl

/-- C2: a bitrate request whose value, after integer division by 1000, equals
the configured bitrate or is ≤ 1 returns success (0), leaves the session
completely unchanged, and does not invoke the reconfiguration entry point. -/
theorem C2_bitrate_noop (reconfig : Nat → X264Param → Int) (e : Encoder)
    (target_bitrate : Int)
    (h : e.param.rc.i_bitrate = target_bitrate.tdiv 1000 ∨ target_bitrate.tdiv 1000 ≤ 1) :
    apply_target_bitrate reconfig e target_bitrate = (e, 0, false) := by
  simp [apply_target_bitrate, h]

/-- C2 witness: requesting 0 bits/second on a session configured at 2000
kbit/s is a no-op success even under an always-rejecting engine. -/
theorem C2_bitrate_noop_witness :
    ((0 : Int).tdiv 1000 ≤ 1) ∧
    apply_target_bitrate reconfigReject enc0 0 = (enc0, 0, false) :=
  ⟨by decide, C2_bitrate_noop reconfigReject enc0 0 (Or.inr (by decide))⟩

/-- C3: a non-no-op bitrate request updates the session configuration to the
converted bitrate, rate-tolerance 0.1, VBV max bitrate = converted value plus
half the 10000 margin, VBV buffer size equal to that max, and VBV initial
fullness 0.6, and the value returned is that of the reconfiguration entry
point applied to the session handle and the already-updated configuration. -/
theorem C3_bitrate_retarget_fields (reconfig : Nat → X264Param → Int) (e : Encoder)
    (target_bitrate : Int)
    (h1 : e.param.rc.i_bitrate ≠ target_bitrate.tdiv 1000)
    (h2 : 1 < target_bitrate.tdiv 1000) :
    (apply_target_bitrate reconfig e target_bitrate).1.param.rc.i_bitrate
        = target_bitrate.tdiv 1000 ∧
    (apply_target_bitrate reconfig e target_bitrate).1.param.rc.f_rate_tolerance
        = 1 / 10 ∧
    (apply_target_bitrate reconfig e target_bitrate).1.param.rc.i_vbv_max_bitrate
        = target_bitrate.tdiv 1000 + RC_MARGIN.tdiv 2 ∧
    (apply_target_bitrate reconfig e target_bitrate).1.param.rc.i_vbv_buffer_size
        = (apply_target_bitrate reconfig e target_bitrate).1.param.rc.i_vbv_max_bitrate ∧
    (apply_target_bitrate reconfig e target_bitrate).1.param.rc.f_vbv_buffer_init
        = 3 / 5 ∧
    (apply_target_bitrate reconfig e target_bitrate).2.1
        = reconfig (apply_target_bitrate reconfig e target_bitrate).1.h
            (apply_target_bitrate reconfig e target_bitrate).1.param ∧
    (apply_target_bitrate reconfig e target_bitrate).2.2 = true := by
  have hcond : ¬ (e.param.rc.i_bitrate = target_bitrate.tdiv 1000 ∨
      target_bitrate.tdiv 1000 ≤ 1) := by
    push_neg
    exact ⟨h1, h2⟩
  simp [apply_target_bitrate, hcond, retarget_param, retarget_rc]

/-- C3 witness: retargeting a 2000 kbit/s session to 3000000 bits/s yields
bitrate 3000, tolerance 0.1, VBV max = buffer = 8000, fullness 0.6. -/
theorem C3_bitrate_retarget_fields_witness :
    (apply_target_bitrate reconfigOK enc0 3000000).1.param.rc.i_bitrate = 3000 ∧
    (apply_target_bitrate reconfigOK enc0 3000000).1.param.rc.f_rate_tolerance = 1 / 10 ∧
    (apply_target_bitrate reconfigOK enc0 3000000).1.param.rc.i_vbv_max_bitrate = 8000 ∧
    (apply_target_bitrate reconfigOK enc0 3000000).1.param.rc.i_vbv_buffer_size = 8000 ∧
    (apply_target_bitrate reconfigOK enc0 3000000).1.param.rc.f_vbv_buffer_init = 3 / 5 ∧
    (apply_target_bitrate reconfigOK enc0 3000000).2.2 = true := by
  obtain ⟨a, b, c, d, f, -, g⟩ :=
    C3_bitrate_retarget_fields reconfigOK enc0 3000000 (by decide) (by decide)
  refine ⟨a.trans (by decide), b, c.trans (by decide), ?_, f, g⟩
  rw [d, c]
  decide

/-- C6: when a non-no-op bitrate request is rejected by the engine (negative
reconfiguration return), the operation returns that negative value and the
session's in-memory configuration keeps the attempted new values (no
rollback). -/
theorem C6_reconfig_failure_no_rollback (reconfig : Nat → X264Param → Int)
    (e : Encoder) (target_bitrate : Int)
    (h1 : e.param.rc.i_bitrate ≠ target_bitrate.tdiv 1000)
    (h2 : 1 < target_bitrate.tdiv 1000)
    (h3 : reconfig e.h (retarget_param e.param (target_bitrate.tdiv 1000)) < 0) :
    (apply_target_bitrate reconfig e target_bitrate).2.1 < 0 ∧
    (apply_target_bitrate reconfig e target_bitrate).1.param
        = retarget_param e.param (target_bitrate.tdiv 1000) := by
  have hcond : ¬ (e.param.rc.i_bitrate = target_bitrate.tdiv 1000 ∨
      target_bitrate.tdiv 1000 ≤ 1) := by
    push_neg
    exact ⟨h1, h2⟩
  simp only [apply_target_bitrate, if_neg hcond]
  exact ⟨h3, trivial⟩

/-- C6 witness: a rejected retarget of the 2000 kbit/s session to 3000000
bits/s returns a negative value while the stored bitrate remains 3000. -/
theorem C6_reconfig_failure_no_rollback_witness :
    (apply_target_bitrate reconfigReject enc0 3000000).2.1 < 0 ∧
    (apply_target_bitrate reconfigReject enc0 3000000).1.param
        = retarget_param enc0.param 3000 :=
  C6_reconfig_failure_no_rollback reconfigReject enc0 3000000
    (by decide) (by decide) (by decide)

/-- C10: a bitrate-change request, on every path, leaves the engine handle,
the input-frame descriptor, the force-key-frame flag, every non-rate-control
configuration field, and the rate-control mode unchanged. -/
theorem C10_bitrate_change_frame_effect (reconfig : Nat → X264Param → Int)
    (e : Encoder) (target_bitrate : Int) :
    (apply_target_bitrate reconfig e target_bitrate).1.h = e.h ∧
    (apply_target_bitrate reconfig e target_bitrate).1.pic_in = e.pic_in ∧
    (apply_target_bitrate reconfig e target_bitrate).1.force_key_frame
        = e.force_key_frame ∧
    (apply_target_bitrate reconfig e target_bitrate).1.param.i_csp = e.param.i_csp ∧
    (apply_target_bitrate reconfig e target_bitrate).1.param.i_width = e.param.i_width ∧
    (apply_target_bitrate reconfig e target_bitrate).1.param.i_height = e.param.i_height ∧
    (apply_target_bitrate reconfig e target_bitrate).1.param.i_fps_num = e.param.i_fps_num ∧
    (apply_target_bitrate reconfig e target_bitrate).1.param.i_fps_den = e.param.i_fps_den ∧
    (apply_target_bitrate reconfig e target_bitrate).1.param.i_keyint_max
        = e.param.i_keyint_max ∧
    (apply_target_bitrate reconfig e target_bitrate).1.param.b_repeat_headers
        = e.param.b_repeat_headers ∧
    (apply_target_bitrate reconfig e target_bitrate).1.param.b_annexb = e.param.b_annexb ∧
    (apply_target_bitrate reconfig e target_bitrate).1.param.rc.i_rc_method
        = e.param.rc.i_rc_method := by
  simp only [apply_target_bitrate]
  split <;> simp [retarget_param, retarget_rc]

/-- C5: provided the caller's `rc` slot does not already hold the encode error
code, an encode call reports `EncodeFailed` (writes `ERR_ENCODE`) exactly when
the engine's frame size is ≤ 0; the returned unit's length is always that
frame size (so a non-positive length marks the failure case), its payload
pointer is NULL on failure and the first emitted NAL's payload on success. -/
theorem C5_encode_failure_contract (engine : Nat → PicIn → EncodeEngineResult)
    (e : Encoder) (y cb cr : Nat) (rc0 : Int) (hrc : rc0 ≠ ERR_ENCODE) :
    ((enc_encode engine e y cb cr rc0).2.2 = ERR_ENCODE ↔
        (engine e.h (submitted_pic e y cb cr)).frame_size ≤ 0) ∧
    (enc_encode engine e y cb cr rc0).2.1.data_len
        = (engine e.h (submitted_pic e y cb cr)).frame_size ∧
    ((engine e.h (submitted_pic e y cb cr)).frame_size ≤ 0 →
        (enc_encode engine e y cb cr rc0).2.1.data = 0) ∧
    (0 < (engine e.h (submitted_pic e y cb cr)).frame_size →
        (enc_encode engine e y cb cr rc0).2.1.data
            = (engine e.h (submitted_pic e y cb cr)).payload) := by
  simp only [enc_encode]
  split
  case isTrue hle =>
    exact ⟨by simp [hle], rfl, fun _ => rfl, fun hpos => absurd hle (by omega)⟩
  case isFalse hgt =>
    exact ⟨iff_of_false hrc hgt, rfl, fun hle => absurd hle hgt, fun _ => rfl⟩

/-- C5 witness: with an engine emitting 100 bytes at payload 42 and the `rc`
slot holding 0, the call does not report failure and returns (42, 100). -/
theorem C5_encode_failure_contract_witness :
    ¬ (enc_encode engineOk enc0 1 2 3 0).2.2 = ERR_ENCODE ∧
    (enc_encode engineOk enc0 1 2 3 0).2.1.data_len = 100 ∧
    (enc_encode engineOk enc0 1 2 3 0).2.1.data = 42 := by
  obtain ⟨hiff, hlen, -, hdata⟩ :=
    C5_encode_failure_contract engineOk enc0 1 2 3 0 (by decide)
  exact ⟨fun hc => absurd (hiff.mp hc) (by decide), hlen.trans (by decide),
    (hdata (by decide)).trans (by decide)⟩

/-- C7: the configuration derived by the translator's overwrite block copies
pixel format, width, height, frame-rate numerator, max key-frame interval,
target bitrate, VBV max bitrate and VBV buffer size exactly from the caller's
parameters, fixes the frame-rate denominator to 1, forces ABR rate control,
and sets the repeat-headers and Annex-B flags. -/
theorem C7_configure_fields (defaults param : X264Param) :
    (configure defaults param).i_csp = param.i_csp ∧
    (configure defaults param).i_width = param.i_width ∧
    (configure defaults param).i_height = param.i_height ∧
    (configure defaults param).i_fps_num = param.i_fps_num ∧
    (configure defaults param).i_fps_den = 1 ∧
    (configure defaults param).i_keyint_max = param.i_keyint_max ∧
    (configure defaults param).rc.i_rc_method = X264_RC_ABR ∧
    (configure defaults param).rc.i_bitrate = param.rc.i_bitrate ∧
    (configure defaults param).rc.i_vbv_max_bitrate = param.rc.i_vbv_max_bitrate ∧
    (configure defaults param).rc.i_vbv_buffer_size = param.rc.i_vbv_buffer_size ∧
    (configure defaults param).b_repeat_headers = 1 ∧
    (configure defaults param).b_annexb = 1 := by
  simp [configure]

/-- C4 (refuting the claim as stated): `enc_new` never writes the
`force_key_frame` field of the freshly `malloc`ed session, so a fully
successful open returns a session whose flag holds whatever indeterminate
value `malloc` left there — here 1, i.e. not false. -/
theorem C4_force_key_frame_not_initialized :
    (enc_new oracleOK 1 p0 "veryfast" 0).1.isSome = true ∧
    Option.map Encoder.force_key_frame (enc_new oracleOK 1 p0 "veryfast" 0).1
        = some 1 := by
  constructor <;> rfl

/-- C8: whenever `enc_new` fails (returns no session), none of the three
allocations it manages — the session struct, the preset string, the temporary
picture storage — is still live at return. -/
theorem C8_open_failure_no_leak (o : EncNewOracle) (junk_fkf : Int)
    (param : X264Param) (preset : String) (rc0 : Int)
    (h : (enc_new o junk_fkf param preset rc0).1 = none) :
    (enc_new o junk_fkf param preset rc0).2.2 = ⟨false, false, false⟩ := by
  rcases hdp : o.default_preset preset with _ | defaults
  · simp [enc_new, hdp]
  · rcases hap : o.apply_profile (configure defaults param) with _ | cfg'
    · simp [enc_new, hdp, hap]
    · rcases hpa : o.picture_alloc param.i_csp param.i_width param.i_height with _ | pic
      · simp [enc_new, hdp, hap, hpa]
      · rcases heo : o.encoder_open cfg' with _ | hh
        · simp [enc_new, hdp, hap, hpa, heo]
        · exact absurd h (by simp [enc_new, hdp, hap, hpa, heo])

/-- C8 witness: opening with a preset the engine rejects produces no session
and leaves nothing allocated. -/
theorem C8_open_failure_no_leak_witness :
    (enc_new oracleBadPreset 0 p0 "turbo-ultra" 0).1 = none ∧
    (enc_new oracleBadPreset 0 p0 "turbo-ultra" 0).2.2 = ⟨false, false, false⟩ :=
  ⟨rfl, C8_open_failure_no_leak oracleBadPreset 0 p0 "turbo-ultra" 0 rfl⟩

/-- C9: the `rc` out-parameter is written only on failure paths: a successful
open returns it unchanged, an encode whose frame size is positive returns it
unchanged (and one with frame size ≤ 0 overwrites it with `ERR_ENCODE`), and
close never touches it. -/
theorem C9_rc_written_only_on_failure :
    (∀ (o : EncNewOracle) (junk_fkf : Int) (param : X264Param) (preset : String)
        (rc0 : Int), (enc_new o junk_fkf param preset rc0).1.isSome = true →
        (enc_new o junk_fkf param preset rc0).2.1 = rc0) ∧
    (∀ (engine : Nat → PicIn → EncodeEngineResult) (e : Encoder) (y cb cr : Nat)
        (rc0 : Int), 0 < (engine e.h (submitted_pic e y cb cr)).frame_size →
        (enc_encode engine e y cb cr rc0).2.2 = rc0) ∧
    (∀ (engine : Nat → PicIn → EncodeEngineResult) (e : Encoder) (y cb cr : Nat)
        (rc0 : Int), (engine e.h (submitted_pic e y cb cr)).frame_size ≤ 0 →
        (enc_encode engine e y cb cr rc0).2.2 = ERR_ENCODE) ∧
    (∀ (e : Encoder) (rc0 : Int), enc_close e rc0 = rc0) := by
  refine ⟨?_, ?_, ?_, fun _ _ => rfl⟩
  · intro o junk_fkf param preset rc0 h
    rcases hdp : o.default_preset preset with _ | defaults
    · simp [enc_new, hdp] at h
    · rcases hap : o.apply_profile (configure defaults param) with _ | cfg'
      · simp [enc_new, hdp, hap] at h
      · rcases hpa : o.picture_alloc param.i_csp param.i_width param.i_height with _ | pic
        · simp [enc_new, hdp, hap, hpa] at h
        · rcases heo : o.encoder_open cfg' with _ | hh
          · simp [enc_new, hdp, hap, hpa, heo] at h
          · simp [enc_new, hdp, hap, hpa, heo]
  · intro engine e y cb cr rc0 h
    simp only [enc_encode]
    rw [if_neg (by omega)]
  · intro engine e y cb cr rc0 h
    simp only [enc_encode]
    rw [if_pos h]

/-- C9 witness: with the caller's `rc` slot holding 7, a successful open, a
100-byte encode, and a close all leave it at 7, while a 0-byte encode
overwrites it with the encode error code. -/
theorem C9_rc_written_only_on_failure_witness :
    (enc_new oracleOK 0 p0 "veryfast" 7).2.1 = 7 ∧
    (enc_encode engineOk enc0 1 2 3 7).2.2 = 7 ∧
    (enc_encode engineStall enc0 1 2 3 7).2.2 = ERR_ENCODE ∧
    enc_close enc0 7 = 7 :=
  ⟨C9_rc_written_only_on_failure.1 oracleOK 0 p0 "veryfast" 7 rfl,
   C9_rc_written_only_on_failure.2.1 engineOk enc0 1 2 3 7 (by decide),
   C9_rc_written_only_on_failure.2.2.1 engineStall enc0 1 2 3 7 (by decide),
   C9_rc_written_only_on_failure.2.2.2 enc0 7⟩
